import Mathlib

set_option maxHeartbeats 1000000

/-! Shallow embedding of the defensive investor screener
    (src/defensive_investor_screener.py).

    Conventions of the embedding:
    - Python floats are modelled by the rationals.
    - A provider record (a parsed JSON object) is an association list from
      field names to values; a value is JSON null, a string on which the
      Python float() conversion fails, or a string paired with the rational
      that float() parses it to.  The parse result is carried on the value
      because the environment (the provider) supplies it; every claim in
      scope depends only on how parse failures are handled, not on the
      parsing function itself.
    - Python exceptions are modelled with Except; each rule checker wraps
      its body with a handler mirroring the try/except of the source.
    - The wall clock used by the rate limiter is an explicit mock clock
      (a World value); time.sleep advances it by exactly the requested
      amount, as the specification states rate properties over mock time. -/

/-- A provider-supplied scalar value. -/
inductive PyVal where
  | vNone : PyVal
  | vStr : String → PyVal
  | vNum : String → ℚ → PyVal
deriving DecidableEq

/-- A raw provider record: a finite string-keyed map, as an association list. -/
abbrev RawRecord := List (String × PyVal)

/-- Python dict.get on a record: first binding of the key, if any. -/
def pyGet (data : RawRecord) (field : String) : Option PyVal :=
  (data.find? (fun p => p.1 == field)).map (fun p => p.2)

/-- The absence markers checked by get_field: empty, the literal None, a dash. -/
def sentinel (s : String) : Bool :=
  s == "" || s == "None" || s == "-"

/-- Embedding of get_field: fetch and validate a field, raising ValueError
    (as an Except error carrying the message) if missing or not numeric. -/
def get_field (data : RawRecord) (field : String) : Except String ℚ :=
  match pyGet data field with
  | Option.none => Except.error (field ++ " N/A")
  | some PyVal.vNone => Except.error (field ++ " N/A")
  | some (PyVal.vStr s) =>
      if sentinel s then Except.error (field ++ " N/A")
      else Except.error (field ++ " invalid: " ++ s)
  | some (PyVal.vNum s q) =>
      if sentinel s then Except.error (field ++ " N/A")
      else Except.ok q

/-- Python division on floats: raises ZeroDivisionError on a zero divisor. -/
def pyDiv (a b : ℚ) : Except String ℚ :=
  if b = 0 then Except.error "float division by zero" else Except.ok (a / b)

/-- Round a rational to the nearest integer (ties upward), used for the
    fixed-point decimal rendering of the detail strings. -/
def roundQ (q : ℚ) : ℤ := (q + 1/2).floor

/-- Left-pad a digit string with zeros to the requested width. -/
def padZeros (nd : ℕ) (s : String) : String :=
  if s.length < nd then String.mk (List.replicate (nd - s.length) '0') ++ s else s

/-- Fixed-point decimal rendering with nd fractional digits, modelling the
    Python format specifier used in the detail strings. -/
def fmtFixed (nd : ℕ) (q : ℚ) : String :=
  let m : ℤ := roundQ (q * ((10 : ℚ) ^ nd))
  let sign := if m < 0 then "-" else ""
  let a : ℕ := m.natAbs
  sign ++ toString (a / 10 ^ nd) ++ "." ++ padZeros nd (toString (a % 10 ^ nd))

/-- Two fractional digits, as in the Python .2f format. -/
def fmt2 : ℚ → String := fmtFixed 2

/-- One fractional digit, as in the Python .1f format. -/
def fmt1 : ℚ → String := fmtFixed 1

/- The Config class of the source. -/
namespace Config

def apiCallsPerStock : ℕ := 4

def callsPerMinute : ℚ := 5

def maxDailyCalls : ℕ := 25

def minMarketCap : ℚ := 10000000000

def minCurrentRatio : ℚ := 2

def minDividendYears : ℕ := 20

def minEarningsGrowth : ℚ := 1/3

def maxPeRatio : ℚ := 15

def maxPbRatio : ℚ := 3/2

def minEarningsYears : ℕ := 10

end Config

/-- A statement dataset: the annualReports key of the provider dict, when
    present, holds the year-ordered list of reports (most recent first). -/
abbrev Statement := Option (List RawRecord)

/-- The report list of a statement dict, empty when the key is absent;
    mirrors income_statement.get with an empty-list default. -/
def reportsOf (s : Statement) : List RawRecord := s.getD []

/-- The try/except wrapper shared by all rule checkers: an uncaught
    exception becomes a failed outcome with an error detail. -/
def handle (x : Except String (Bool × String)) : Bool × String :=
  match x with
  | Except.ok r => r
  | Except.error e => (false, "error (" ++ e ++ ")")

/-- Rule 1: market cap greater than 10 billion dollars. -/
def check_rule_1_size (overview : RawRecord) : Bool × String :=
  handle (match get_field overview "MarketCapitalization" with
    | Except.error e => Except.error e
    | Except.ok market_cap =>
        let passed := decide (Config.minMarketCap < market_cap)
        let msg := "market cap $" ++ fmt2 (market_cap / 1000000000) ++ "B"
        Except.ok (passed, if passed then msg else msg ++ " (< $10B)"))

/-- Rule 7: price-to-book ratio below 1.5. -/
def check_rule_7_price_to_book (overview : RawRecord) : Bool × String :=
  handle (match get_field overview "PriceToBookRatio" with
    | Except.error e => Except.error e
    | Except.ok pb_ratio =>
        let passed := decide (pb_ratio < Config.maxPbRatio)
        let msg := "P/B " ++ fmt2 pb_ratio
        Except.ok (passed, if passed then msg else msg ++ " (>= 1.5)"))

/-- The generator expression of rule 3: count reports with positive
    netIncome, propagating a get_field failure at the first bad report. -/
def count_positive_net_income : List RawRecord → Except String ℕ
  | [] => Except.ok 0
  | r :: rs =>
    match get_field r "netIncome" with
    | Except.error e => Except.error e
    | Except.ok ni =>
      match count_positive_net_income rs with
      | Except.error e => Except.error e
      | Except.ok k => Except.ok ((if 0 < ni then 1 else 0) + k)

/-- Rule 3: strictly positive earnings in each of the past 10 years. -/
def check_rule_3_earnings_stability (income_statement : Statement) : Bool × String :=
  handle (match reportsOf income_statement with
    | [] => Except.ok (false, "no income statement data")
    | r :: rs =>
      let reports := (r :: rs).take Config.minEarningsYears
      if reports.length < Config.minEarningsYears then
        Except.ok (false, "need 10 years of data (only " ++ toString reports.length ++ " available)")
      else
        match count_positive_net_income reports with
        | Except.error e => Except.error e
        | Except.ok positive_years =>
          Except.ok (decide (positive_years = Config.minEarningsYears),
            "positive earnings " ++ toString positive_years ++ "/10 years"))

/-- The sector lookup of rule 2: overview.get with an empty default,
    then lowered; a None value has no lower attribute and raises. -/
def lower_sector (overview : RawRecord) : Except String String :=
  match pyGet overview "Sector" with
  | Option.none => Except.ok ""
  | some PyVal.vNone => Except.error "NoneType object has no attribute lower"
  | some (PyVal.vStr s) => Except.ok s.toLower
  | some (PyVal.vNum s _) => Except.ok s.toLower

/-- One entry of the interest-coverage list of rule 2: EBIT over interest
    expense rendered with two decimals, or the N/A annotation when either
    field is unusable or the interest expense is not positive. -/
def coverage_entry (report : RawRecord) : String :=
  match get_field report "ebit", get_field report "interestExpense" with
  | Except.ok ebit, Except.ok interest_expense =>
      if 0 < interest_expense then fmt2 (ebit / interest_expense) else "N/A"
  | _, _ => "N/A"

/-- The interest-coverage list of rule 2: one entry per report over the
    7 most recent years, empty when the income series is absent or empty. -/
def coverage_list (income_statement : Statement) : List String :=
  match reportsOf income_statement with
  | [] => []
  | r :: rs => ((r :: rs).take 7).map coverage_entry

/-- The interest-coverage fragment of the rule 2 detail string. -/
def coverage_str (income_statement : Statement) : String :=
  let l := coverage_list income_statement
  if l.isEmpty then "Interest coverage: N/A"
  else "7-yr interest coverage: [" ++ String.intercalate ", " l ++ "]"

/-- The current-ratio fragment of the non-utility detail of rule 2. -/
def current_ratio_part (current_ratio : ℚ) : String :=
  if Config.minCurrentRatio < current_ratio then
    "current ratio " ++ fmt2 current_ratio
  else
    "current ratio " ++ fmt2 current_ratio ++ " (<= 2.0)"

/-- The long-term-debt versus working-capital fragment of the non-utility
    detail of rule 2. -/
def debt_part (long_term_debt working_capital : ℚ) : String :=
  if long_term_debt < working_capital then
    "long-term debt $" ++ fmt1 (long_term_debt / 1000000) ++ "M, working capital $" ++
      fmt1 (working_capital / 1000000) ++ "M"
  else
    "long-term debt $" ++ fmt1 (long_term_debt / 1000000) ++ "M (>= working capital $" ++
      fmt1 (working_capital / 1000000) ++ "M)"

/-- The body of rule 2 before exception handling. -/
def rule2_body (balance_sheet income_statement : Statement) (overview : RawRecord) :
    Except String (Bool × String) :=
  match reportsOf balance_sheet with
  | [] => Except.ok (false, "no balance sheet data")
  | latest :: _ =>
    match get_field latest "longTermDebt" with
    | Except.error e => Except.error e
    | Except.ok long_term_debt =>
      match get_field latest "shortTermDebt" with
      | Except.error e => Except.error e
      | Except.ok short_term_debt =>
        match get_field latest "totalShareholderEquity" with
        | Except.error e => Except.error e
        | Except.ok total_equity =>
          let total_debt := long_term_debt + short_term_debt
          let debt_to_equity : Option ℚ :=
            if 0 < total_equity then some (total_debt / total_equity) else Option.none
          let cov := coverage_str income_statement
          match lower_sector overview with
          | Except.error e => Except.error e
          | Except.ok sector =>
            if sector = "utilities" then
              match debt_to_equity with
              | Option.none =>
                  Except.ok (false, "debt/equity N/A (negative equity), " ++ cov)
              | some r =>
                  if r < 2 then
                    Except.ok (true, "debt/equity " ++ fmt2 r ++ ", " ++ cov)
                  else
                    Except.ok (false, "debt/equity " ++ fmt2 r ++ " (>= 2.0), " ++ cov)
            else
              match get_field latest "totalCurrentAssets" with
              | Except.error e => Except.error e
              | Except.ok current_assets =>
                match get_field latest "totalCurrentLiabilities" with
                | Except.error e => Except.error e
                | Except.ok current_liabilities =>
                  match pyDiv current_assets current_liabilities with
                  | Except.error e => Except.error e
                  | Except.ok current_ratio =>
                    let working_capital := current_assets - current_liabilities
                    let ratio_ok := decide (Config.minCurrentRatio < current_ratio)
                    let debt_ok := decide (long_term_debt < working_capital)
                    Except.ok (ratio_ok && debt_ok,
                      current_ratio_part current_ratio ++ ", " ++
                        debt_part long_term_debt working_capital ++ ", " ++ cov)

/-- Rule 2: utilities need debt to equity below 2; other companies need a
    current ratio above 2 and long-term debt below working capital. -/
def check_rule_2_financial_condition (balance_sheet income_statement : Statement)
    (overview : RawRecord) : Bool × String :=
  handle (rule2_body balance_sheet income_statement overview)

/-- The parse outcome of an ex-dividend date string: either strptime with
    the YYYY-MM-DD pattern fails, or it succeeds and the date has the given
    calendar year.  The parse result is carried on the value because the
    environment supplies it (same convention as PyVal). -/
inductive ExDate where
  | invalid : ExDate
  | valid : ℤ → ExDate
deriving DecidableEq

/-- One record of the dividend history; the ex_dividend_date entry is absent
    when the key is missing or its value is falsy (None or empty string). -/
structure DivRecord where
  ex_dividend_date : Option ExDate
deriving DecidableEq

/-- The distinct calendar years among valid ex-dividend dates of a dividend
    history (the years_with_dividends set of rule 4). -/
def years_with_dividends (records : List DivRecord) : List ℤ :=
  (records.filterMap (fun rec =>
    match rec.ex_dividend_date with
    | some (ExDate.valid y) => some y
    | _ => Option.none)).dedup

/-- Insert a year into a descending-sorted list, keeping it sorted. -/
def insertDesc (y : ℤ) : List ℤ → List ℤ
  | [] => [y]
  | z :: zs => if z ≤ y then y :: z :: zs else z :: insertDesc y zs

/-- Sort a list of years in descending order (sorted with reverse=True). -/
def sortDesc (l : List ℤ) : List ℤ := l.foldr insertDesc []

/-- The tail of the consecutive-years loop of rule 4: length of the run of
    successive decrements continuing from the previous year. -/
def run_from (prev : ℤ) : List ℤ → ℕ
  | [] => 0
  | y :: ys => if y = prev - 1 then 1 + run_from y ys else 0

/-- The consecutive-years loop of rule 4: length of the longest prefix of
    the (descending-sorted) year list decreasing by exactly one each step. -/
def countRun : List ℤ → ℕ
  | [] => 0
  | y :: ys => 1 + run_from y ys

/-- Rule 4: at least 20 consecutive years with dividends, counting back
    from the most recent year with a valid ex-dividend date. -/
def check_rule_4_dividend_record (overview : RawRecord)
    (dividends : Option (List DivRecord)) : Bool × String :=
  handle (match get_field overview "DividendYield" with
    | Except.error e => Except.error e
    | Except.ok dividend_yield =>
      match dividends with
      | Option.none =>
          Except.ok (false, "dividend yield " ++ fmt2 (dividend_yield * 100) ++
            "% (history not available)")
      | some [] =>
          Except.ok (false, "dividend yield " ++ fmt2 (dividend_yield * 100) ++
            "% (history not available)")
      | some (d :: ds) =>
        match years_with_dividends (d :: ds) with
        | [] => Except.ok (false, "no valid dividend dates found")
        | y :: ys =>
          let sorted_years := sortDesc (y :: ys)
          let consecutive_years := countRun sorted_years
          if Config.minDividendYears ≤ consecutive_years then
            Except.ok (true, "dividend yield " ++ fmt2 (dividend_yield * 100) ++ "%, " ++
              toString consecutive_years ++ " consecutive years")
          else
            Except.ok (false, "only " ++ toString consecutive_years ++
              " consecutive years (< 20)"))

/-- The per-year EPS of rules 5 and 6: net income of the income report over
    shares outstanding of the balance report at the same list position; any
    failure (missing field, bad value, zero divisor) yields no value. -/
def eps_pair (income_report balance_report : RawRecord) : Option ℚ :=
  match get_field income_report "netIncome",
        get_field balance_report "commonStockSharesOutstanding" with
  | Except.ok net_income, Except.ok shares_outstanding =>
      if shares_outstanding = 0 then Option.none
      else some (net_income / shares_outstanding)
  | _, _ => Option.none

/-- The EPS series of rule 5: positional pairing of the 10 most recent
    income and balance reports, unusable years kept as placeholders. -/
def epsList (income_statement balance_sheet : Statement) : List (Option ℚ) :=
  (((reportsOf income_statement).take 10).zip ((reportsOf balance_sheet).take 10)).map
    (fun p => eps_pair p.1 p.2)

/-- Arithmetic mean of a list of rationals (sum over len). -/
def avg (l : List ℚ) : ℚ := l.sum / (l.length : ℚ)

/-- The ending window of rule 5: the usable values among the 3 most recent
    EPS entries (indices 0 to 2). -/
def rule5_ending_eps (income_statement balance_sheet : Statement) : List ℚ :=
  ((epsList income_statement balance_sheet).take 3).filterMap id

/-- The beginning window of rule 5: the usable values among EPS entries at
    indices 7 to 9. -/
def rule5_beginning_eps (income_statement balance_sheet : Statement) : List ℚ :=
  (((epsList income_statement balance_sheet).drop 7).take 3).filterMap id

/-- Rule 5: growth of the 3-year average EPS over a 10-year period must
    exceed one third. -/
def check_rule_5_earnings_growth (income_statement balance_sheet : Statement) :
    Bool × String :=
  handle (
    if (reportsOf income_statement).length < 10 then
      Except.ok (false, "need 10 years of data (only " ++
        toString (reportsOf income_statement).length ++ " available)")
    else if (reportsOf balance_sheet).length < 10 then
      Except.ok (false, "need 10 years of balance sheet data (only " ++
        toString (reportsOf balance_sheet).length ++ " available)")
    else
      let eps_values := epsList income_statement balance_sheet
      let usable := (eps_values.filterMap id).length
      if usable < 10 then
        Except.ok (false, "need 10 years of EPS data (only " ++ toString usable ++
          " available)")
      else
        let ending_eps := rule5_ending_eps income_statement balance_sheet
        let beginning_eps := rule5_beginning_eps income_statement balance_sheet
        if ending_eps.length < 3 ∨ beginning_eps.length < 3 then
          Except.ok (false, "insufficient EPS data for 3-year averages")
        else
          let ending_avg := avg ending_eps
          let beginning_avg := avg beginning_eps
          if beginning_avg ≤ 0 then
            Except.ok (false, "starting 3-year average EPS not positive")
          else
            let growth := (ending_avg - beginning_avg) / |beginning_avg|
            let passed := decide (Config.minEarningsGrowth < growth)
            let beginning_eps_str :=
              String.intercalate ", " (beginning_eps.map (fun e => "$" ++ fmt2 e))
            let ending_eps_str :=
              String.intercalate ", " (ending_eps.map (fun e => "$" ++ fmt2 e))
            let core := "EPS growth " ++ fmt1 (growth * 100) ++ "% (3-yr avg $" ++
              fmt2 beginning_avg ++ " → $" ++ fmt2 ending_avg ++ ")"
            if passed then
              Except.ok (true, core ++ ", beginning 3-yr EPS [" ++ beginning_eps_str ++
                "], ending 3-yr EPS [" ++ ending_eps_str ++ "]")
            else
              Except.ok (false, core ++ " (<= 33.3%, per-share basis), beginning 3-yr EPS [" ++
                beginning_eps_str ++ "], ending 3-yr EPS [" ++ ending_eps_str ++ "]"))

/-- The EPS values of rule 6: positional pairing of the 3 most recent
    income and balance reports, unusable years skipped. -/
def eps3_values (income_statement balance_sheet : Statement) : List ℚ :=
  (((reportsOf income_statement).take 3).zip ((reportsOf balance_sheet).take 3)).filterMap
    (fun p => eps_pair p.1 p.2)

/-- Rule 6: price over 3-year average EPS must be below 15, price taken as
    the 50-day moving average of the overview. -/
def check_rule_6_pe_ratio (overview : RawRecord)
    (income_statement balance_sheet : Statement) : Bool × String :=
  handle (match get_field overview "50DayMovingAverage" with
    | Except.error e => Except.error e
    | Except.ok price =>
      if (reportsOf income_statement).length < 3 then
        Except.ok (false, "need 3 years of earnings data")
      else if (reportsOf balance_sheet).length < 3 then
        Except.ok (false, "need 3 years of balance sheet data")
      else
        let eps_values := eps3_values income_statement balance_sheet
        if eps_values.length < 3 then
          Except.ok (false, "need 3 years of EPS data")
        else
          let avg_eps := avg eps_values
          if avg_eps ≤ 0 then
            Except.ok (false, "3-year average EPS not positive")
          else
            let price_to_avg_earnings := price / avg_eps
            let passed := decide (price_to_avg_earnings < Config.maxPeRatio)
            let eps_str := String.intercalate ", " (eps_values.map (fun e => "$" ++ fmt2 e))
            if passed then
              Except.ok (true, "price/avg earnings " ++ fmt2 price_to_avg_earnings ++
                " (price $" ++ fmt2 price ++ ", 3-yr avg EPS $" ++ fmt2 avg_eps ++
                "), 3-yr EPS [" ++ eps_str ++ "]")
            else
              Except.ok (false, "price/avg earnings " ++ fmt2 price_to_avg_earnings ++
                " (>= 15), price $" ++ fmt2 price ++ ", 3-yr EPS [" ++ eps_str ++ "]"))

/-- Python truthiness of a provider value (all values are JSON null or
    strings): null and the empty string are falsy. -/
def truthy : Option PyVal → Bool
  | Option.none => false
  | some PyVal.vNone => false
  | some (PyVal.vStr s) => !(s == "")
  | some (PyVal.vNum s _) => !(s == "")

/-- The abort test of evaluate_stock: the overview fetch must have produced
    a non-empty record with a truthy Symbol entry. -/
def overview_resolved (overview : Option RawRecord) : Bool :=
  match overview with
  | Option.none => false
  | some o => !o.isEmpty && truthy (pyGet o "Symbol")

/-- The fixed rule list of evaluate_stock: the seven evaluators applied to
    the assembled bundle, in rule order 1 to 7. -/
def rule_list (overview : RawRecord) (income_statement balance_sheet : Statement)
    (dividends : Option (List DivRecord)) : List (String × (Bool × String)) :=
  [("Rule 1 (adequate size)", check_rule_1_size overview),
   ("Rule 2 (strong financial condition)",
     check_rule_2_financial_condition balance_sheet income_statement overview),
   ("Rule 3 (earnings stability)", check_rule_3_earnings_stability income_statement),
   ("Rule 4 (dividend record)", check_rule_4_dividend_record overview dividends),
   ("Rule 5 (earnings growth)",
     check_rule_5_earnings_growth income_statement balance_sheet),
   ("Rule 6 (moderate P/E)",
     check_rule_6_pe_ratio overview income_statement balance_sheet),
   ("Rule 7 (moderate P/B)", check_rule_7_price_to_book overview)]

/-- The names of rules whose outcome passed, in rule order (the
    rules_passed accumulator of evaluate_stock). -/
def collect_passed : List (String × (Bool × String)) → List String
  | [] => []
  | (rule_name, pd) :: rest =>
      if pd.1 then rule_name :: collect_passed rest else collect_passed rest

/-- The names of rules whose outcome failed, in rule order (the
    rules_failed accumulator of evaluate_stock). -/
def collect_failed : List (String × (Bool × String)) → List String
  | [] => []
  | (rule_name, pd) :: rest =>
      if pd.1 then collect_failed rest else rule_name :: collect_failed rest

/-- The results record assembled by evaluate_stock. -/
structure ScreeningResult where
  ticker : String
  company_name : PyVal
  current_price : PyVal
  rules_passed : List String
  rules_failed : List String
  rule_details : List (String × String)
  total_passed : ℕ
  passes_all : Bool
deriving DecidableEq

/-- Embedding of evaluate_stock.  The three fetched statement datasets come
    in as the client returned them (failure as Option.none); a failed fetch
    is replaced by an empty dict before the rules run. -/
def evaluate_stock (ticker : String) (overview : Option RawRecord)
    (income_statement : Option Statement) (balance_sheet : Option Statement)
    (dividends : Option (Option (List DivRecord))) : Option ScreeningResult :=
  if overview_resolved overview then
    match overview with
    | Option.none => Option.none
    | some o =>
      let inc : Statement := income_statement.join
      let bal : Statement := balance_sheet.join
      let divs : Option (List DivRecord) := dividends.join
      let rules := rule_list o inc bal divs
      let rp := collect_passed rules
      some { ticker := ticker
             company_name := (pyGet o "Name").getD (PyVal.vStr ticker)
             current_price := (pyGet o "50DayMovingAverage").getD (PyVal.vStr "N/A")
             rules_passed := rp
             rules_failed := collect_failed rules
             rule_details := rules.map (fun x => (x.1, x.2.2))
             total_passed := rp.length
             passes_all := decide (rp.length = 7) }
  else Option.none

/-- The mutable quota and rate state of AlphaVantageClient. -/
structure Client where
  api_key : String
  calls_per_minute : ℚ
  min_delay : ℚ
  last_call_time : ℚ
  daily_calls : ℕ
  max_daily_calls : ℕ
deriving DecidableEq

/-- The constructor of AlphaVantageClient; a falsy calls_per_minute
    argument (absent or zero) falls back to the configured default. -/
def mkClient (api_key : String) (calls_per_minute : Option ℚ) : Client :=
  let cpm := match calls_per_minute with
    | some c => if c = 0 then Config.callsPerMinute else c
    | Option.none => Config.callsPerMinute
  { api_key := api_key
    calls_per_minute := cpm
    min_delay := 60 / cpm
    last_call_time := 0
    daily_calls := 0
    max_daily_calls := Config.maxDailyCalls }

/-- The mock wall clock. -/
structure World where
  clock : ℚ
deriving DecidableEq

/-- Embedding of _rate_limit: sleep away any remainder of the minimum
    inter-call delay, then record the new last-call time and count the
    call.  The returned world reflects the time spent sleeping. -/
def rate_limit (c : Client) (w : World) : Client × World :=
  let elapsed := w.clock - c.last_call_time
  let w1 : World :=
    if elapsed < c.min_delay then { clock := w.clock + (c.min_delay - elapsed) } else w
  ({ c with last_call_time := w1.clock, daily_calls := c.daily_calls + 1 }, w1)

/-- What the provider does with a dispatched request: the transport raises,
    or a non-200 status comes back, or a JSON body arrives (a body carrying
    an Information key is the provider-level rate-limit marker). -/
inductive HttpOutcome where
  | transport : String → HttpOutcome
  | badStatus : ℕ → HttpOutcome
  | good : RawRecord → HttpOutcome
deriving DecidableEq

/-- The observable effect of one _make_request call: the returned dataset
    (if any), the client state after the call, the clock after the call,
    and the dispatched request parameters (absent when no request went
    out). -/
structure ReqResult where
  response : Option RawRecord
  client : Client
  world : World
  request_sent : Option (List (String × String))
deriving DecidableEq

/-- Embedding of _make_request: refuse immediately at the daily ceiling;
    otherwise rate-limit, dispatch with the api key added to the request
    parameters, and map every provider-side failure to an unavailable
    result. -/
def make_request (c : Client) (w : World) (params : List (String × String))
    (outcome : HttpOutcome) : ReqResult :=
  if c.max_daily_calls ≤ c.daily_calls then
    { response := Option.none, client := c, world := w, request_sent := Option.none }
  else
    let cw := rate_limit c w
    let response : Option RawRecord :=
      match outcome with
      | HttpOutcome.transport _ => Option.none
      | HttpOutcome.badStatus _ => Option.none
      | HttpOutcome.good d =>
          if (pyGet d "Information").isSome then Option.none else some d
    { response := response
      client := cw.1
      world := cw.2
      request_sent := some (params ++ [("apikey", c.api_key)]) }

/-- Embedding of _get_data: a function-plus-symbol request. -/
def get_data (c : Client) (w : World) (fn symbol : String) (outcome : HttpOutcome) :
    ReqResult :=
  make_request c w [("function", fn), ("symbol", symbol)] outcome

/-- Fetch the company overview. -/
def get_overview (c : Client) (w : World) (symbol : String) (outcome : HttpOutcome) :
    ReqResult :=
  get_data c w "OVERVIEW" symbol outcome

/-- Fetch the income statement. -/
def get_income_statement (c : Client) (w : World) (symbol : String)
    (outcome : HttpOutcome) : ReqResult :=
  get_data c w "INCOME_STATEMENT" symbol outcome

/-- Fetch the balance sheet. -/
def get_balance_sheet (c : Client) (w : World) (symbol : String)
    (outcome : HttpOutcome) : ReqResult :=
  get_data c w "BALANCE_SHEET" symbol outcome

/-- Fetch the cash flow statement. -/
def get_cash_flow (c : Client) (w : World) (symbol : String) (outcome : HttpOutcome) :
    ReqResult :=
  get_data c w "CASH_FLOW" symbol outcome

/-- Fetch the dividend history. -/
def get_dividends (c : Client) (w : World) (symbol : String) (outcome : HttpOutcome) :
    ReqResult :=
  make_request c w [("function", "DIVIDENDS"), ("symbol", symbol)] outcome

/-- One step of a caller-driven request trace: the idle time the caller
    spends before the fetch, the request parameters, and what the provider
    would answer. -/
structure CallSpec where
  idle : ℚ
  params : List (String × String)
  outcome : HttpOutcome

/-- Run a sequence of fetches against the client, threading state and
    clock; returns the final client, the final clock, and the recorded
    last-call timestamps of exactly the dispatched requests, in order. -/
def run_calls (c : Client) (w : World) : List CallSpec → Client × (World × List ℚ)
  | [] => (c, (w, []))
  | call :: rest =>
    let w0 : World := { clock := w.clock + call.idle }
    let r := make_request c w0 call.params call.outcome
    let ts : List ℚ :=
      match r.request_sent with
      | some _ => [r.client.last_call_time]
      | Option.none => []
    let later := run_calls r.client r.world rest
    (later.1, (later.2.1, ts ++ later.2.2))

/-! Helper lemmas. -/

theorem append_ne_empty (a b : String) (h : a ≠ "") : a ++ b ≠ "" := by
  intro hab
  apply h
  apply String.ext
  have h2 := congrArg String.data hab
  rw [String.data_append] at h2
  have h3 : a.data = [] := (List.append_eq_nil.mp (by simpa using h2)).1
  simpa using h3

theorem handle_snd_ne (x : Except String (Bool × String))
    (h : ∀ b s, x = Except.ok (b, s) → s ≠ "") : (handle x).2 ≠ "" := by
  cases x with
  | error e =>
      show ("error (" ++ e ++ ")") ≠ ""
      apply append_ne_empty
      apply append_ne_empty
      decide
  | ok r => exact h r.1 r.2 (by rfl)

theorem rule1_detail_ne (overview : RawRecord) : (check_rule_1_size overview).2 ≠ "" := by
  unfold check_rule_1_size
  apply handle_snd_ne
  intro b s h
  split at h
  · exact Except.noConfusion h
  · simp only [Except.ok.injEq, Prod.mk.injEq] at h
    obtain ⟨-, hs⟩ := h
    subst hs
    split
    all_goals repeat apply append_ne_empty
    all_goals decide


theorem current_ratio_part_ne (q : ℚ) : current_ratio_part q ≠ "" := by
  unfold current_ratio_part
  split
  all_goals repeat apply append_ne_empty
  all_goals decide

theorem debt_part_ne (a b : ℚ) : debt_part a b ≠ "" := by
  unfold debt_part
  split
  all_goals repeat apply append_ne_empty
  all_goals decide

theorem rule7_detail_ne (overview : RawRecord) :
    (check_rule_7_price_to_book overview).2 ≠ "" := by
  unfold check_rule_7_price_to_book
  apply handle_snd_ne
  intro b s h
  repeat' first
    | (rw [ite_eq_iff] at h; rcases h with ⟨-, h⟩ | ⟨-, h⟩)
    | split at h
  all_goals first
    | exact Except.noConfusion h
    | (simp only [Except.ok.injEq, Prod.mk.injEq] at h
       obtain ⟨-, hs⟩ := h
       subst hs
       repeat' split
       all_goals repeat apply append_ne_empty
       all_goals first
         | decide
         | exact current_ratio_part_ne _
         | exact debt_part_ne _ _)

theorem rule3_detail_ne (income_statement : Statement) :
    (check_rule_3_earnings_stability income_statement).2 ≠ "" := by
  unfold check_rule_3_earnings_stability
  apply handle_snd_ne
  intro b s h
  repeat' first
    | (rw [ite_eq_iff] at h; rcases h with ⟨-, h⟩ | ⟨-, h⟩)
    | split at h
  all_goals first
    | exact Except.noConfusion h
    | (simp only [Except.ok.injEq, Prod.mk.injEq] at h
       obtain ⟨-, hs⟩ := h
       subst hs
       repeat' split
       all_goals repeat apply append_ne_empty
       all_goals first
         | decide
         | exact current_ratio_part_ne _
         | exact debt_part_ne _ _)

theorem rule4_detail_ne (overview : RawRecord) (dividends : Option (List DivRecord)) :
    (check_rule_4_dividend_record overview dividends).2 ≠ "" := by
  unfold check_rule_4_dividend_record
  apply handle_snd_ne
  intro b s h
  repeat' first
    | (rw [ite_eq_iff] at h; rcases h with ⟨-, h⟩ | ⟨-, h⟩)
    | split at h
  all_goals first
    | exact Except.noConfusion h
    | (simp only [Except.ok.injEq, Prod.mk.injEq] at h
       obtain ⟨-, hs⟩ := h
       subst hs
       repeat' split
       all_goals repeat apply append_ne_empty
       all_goals first
         | decide
         | exact current_ratio_part_ne _
         | exact debt_part_ne _ _)

theorem rule5_detail_ne (income_statement balance_sheet : Statement) :
    (check_rule_5_earnings_growth income_statement balance_sheet).2 ≠ "" := by
  unfold check_rule_5_earnings_growth
  apply handle_snd_ne
  intro b s h
  repeat' first
    | (rw [ite_eq_iff] at h; rcases h with ⟨-, h⟩ | ⟨-, h⟩)
    | split at h
  all_goals first
    | exact Except.noConfusion h
    | (simp only [Except.ok.injEq, Prod.mk.injEq] at h
       obtain ⟨-, hs⟩ := h
       subst hs
       repeat' split
       all_goals repeat apply append_ne_empty
       all_goals first
         | decide
         | exact current_ratio_part_ne _
         | exact debt_part_ne _ _)

theorem rule6_detail_ne (overview : RawRecord) (income_statement balance_sheet : Statement) :
    (check_rule_6_pe_ratio overview income_statement balance_sheet).2 ≠ "" := by
  unfold check_rule_6_pe_ratio
  apply handle_snd_ne
  intro b s h
  repeat' first
    | (rw [ite_eq_iff] at h; rcases h with ⟨-, h⟩ | ⟨-, h⟩)
    | split at h
  all_goals first
    | exact Except.noConfusion h
    | (simp only [Except.ok.injEq, Prod.mk.injEq] at h
       obtain ⟨-, hs⟩ := h
       subst hs
       repeat' split
       all_goals repeat apply append_ne_empty
       all_goals first
         | decide
         | exact current_ratio_part_ne _
         | exact debt_part_ne _ _)

theorem rule2_detail_ne (balance_sheet income_statement : Statement)
    (overview : RawRecord) :
    (check_rule_2_financial_condition balance_sheet income_statement overview).2 ≠ "" := by
  unfold check_rule_2_financial_condition rule2_body
  apply handle_snd_ne
  intro b s h
  repeat' first
    | (rw [ite_eq_iff] at h; rcases h with ⟨-, h⟩ | ⟨-, h⟩)
    | split at h
  all_goals first
    | exact Except.noConfusion h
    | (simp only [Except.ok.injEq, Prod.mk.injEq] at h
       obtain ⟨-, hs⟩ := h
       subst hs
       repeat' split
       all_goals repeat apply append_ne_empty
       all_goals first
         | decide
         | exact current_ratio_part_ne _
         | exact debt_part_ne _ _)


theorem rule1_missing_false (overview : RawRecord) (e : String)
    (h : get_field overview "MarketCapitalization" = Except.error e) :
    (check_rule_1_size overview).1 = false := by
  unfold check_rule_1_size
  rw [h]
  rfl

theorem rule7_missing_false (overview : RawRecord) (e : String)
    (h : get_field overview "PriceToBookRatio" = Except.error e) :
    (check_rule_7_price_to_book overview).1 = false := by
  unfold check_rule_7_price_to_book
  rw [h]
  rfl

theorem rule2_no_data_false (balance_sheet income_statement : Statement)
    (overview : RawRecord) (h : reportsOf balance_sheet = []) :
    (check_rule_2_financial_condition balance_sheet income_statement overview).1 = false := by
  unfold check_rule_2_financial_condition rule2_body
  rw [h]
  rfl

theorem rule2_error_false (balance_sheet income_statement : Statement)
    (overview : RawRecord) (e : String)
    (h : rule2_body balance_sheet income_statement overview = Except.error e) :
    (check_rule_2_financial_condition balance_sheet income_statement overview).1 = false := by
  unfold check_rule_2_financial_condition
  rw [h]
  rfl

theorem rule3_short_false (income_statement : Statement)
    (h : (reportsOf income_statement).length < Config.minEarningsYears) :
    (check_rule_3_earnings_stability income_statement).1 = false := by
  unfold check_rule_3_earnings_stability
  cases hr : reportsOf income_statement with
  | nil => rfl
  | cons r rs =>
      rw [hr] at h
      have hlen : ((r :: rs).take Config.minEarningsYears).length < Config.minEarningsYears := by
        simp only [List.length_take]
        omega
      dsimp only
      rw [if_pos hlen]
      rfl

theorem rule3_eval (income_statement : Statement)
    (h10 : Config.minEarningsYears ≤ (reportsOf income_statement).length) :
    check_rule_3_earnings_stability income_statement =
      handle ((count_positive_net_income
          ((reportsOf income_statement).take Config.minEarningsYears)).map
        (fun k => (decide (k = Config.minEarningsYears),
          "positive earnings " ++ toString k ++ "/10 years"))) := by
  unfold check_rule_3_earnings_stability
  cases hr : reportsOf income_statement with
  | nil =>
      rw [hr] at h10
      exact absurd h10 (by decide)
  | cons r rs =>
      rw [hr] at h10
      have hlen : ¬ ((r :: rs).take Config.minEarningsYears).length < Config.minEarningsYears := by
        simp only [List.length_take]
        omega
      dsimp only
      rw [if_neg hlen]
      cases count_positive_net_income ((r :: rs).take Config.minEarningsYears) with
      | error e => rfl
      | ok k => rfl

theorem rule4_yield_error_false (overview : RawRecord)
    (dividends : Option (List DivRecord)) (e : String)
    (h : get_field overview "DividendYield" = Except.error e) :
    (check_rule_4_dividend_record overview dividends).1 = false := by
  unfold check_rule_4_dividend_record
  rw [h]
  rfl

theorem rule4_no_history_false (overview : RawRecord)
    (dividends : Option (List DivRecord))
    (h : dividends = Option.none ∨ dividends = some []) :
    (check_rule_4_dividend_record overview dividends).1 = false := by
  unfold check_rule_4_dividend_record
  cases hgf : get_field overview "DividendYield" with
  | error e => rfl
  | ok dy =>
      rcases h with h | h
      all_goals rw [h]
      all_goals rfl

theorem rule4_no_dates_false (overview : RawRecord) (d : DivRecord) (ds : List DivRecord)
    (h : years_with_dividends (d :: ds) = []) :
    (check_rule_4_dividend_record overview (some (d :: ds))).1 = false := by
  unfold check_rule_4_dividend_record
  cases hgf : get_field overview "DividendYield" with
  | error e => rfl
  | ok dy =>
      dsimp only
      rw [h]
      rfl

theorem rule5_short_income_false (income_statement balance_sheet : Statement)
    (h : (reportsOf income_statement).length < 10) :
    (check_rule_5_earnings_growth income_statement balance_sheet).1 = false := by
  unfold check_rule_5_earnings_growth
  rw [if_pos h]
  rfl

theorem rule5_short_balance_false (income_statement balance_sheet : Statement)
    (h10 : ¬ (reportsOf income_statement).length < 10)
    (h : (reportsOf balance_sheet).length < 10) :
    (check_rule_5_earnings_growth income_statement balance_sheet).1 = false := by
  unfold check_rule_5_earnings_growth
  rw [if_neg h10, if_pos h]
  rfl

theorem rule5_unusable_false (income_statement balance_sheet : Statement)
    (h10 : ¬ (reportsOf income_statement).length < 10)
    (h10b : ¬ (reportsOf balance_sheet).length < 10)
    (h : ((epsList income_statement balance_sheet).filterMap id).length < 10) :
    (check_rule_5_earnings_growth income_statement balance_sheet).1 = false := by
  unfold check_rule_5_earnings_growth
  rw [if_neg h10, if_neg h10b]
  dsimp only
  rw [if_pos h]
  rfl

theorem rule6_price_error_false (overview : RawRecord)
    (income_statement balance_sheet : Statement) (e : String)
    (h : get_field overview "50DayMovingAverage" = Except.error e) :
    (check_rule_6_pe_ratio overview income_statement balance_sheet).1 = false := by
  unfold check_rule_6_pe_ratio
  rw [h]
  rfl

theorem rule6_short_false (overview : RawRecord)
    (income_statement balance_sheet : Statement)
    (h : (reportsOf income_statement).length < 3 ∨ (reportsOf balance_sheet).length < 3) :
    (check_rule_6_pe_ratio overview income_statement balance_sheet).1 = false := by
  unfold check_rule_6_pe_ratio
  cases hgf : get_field overview "50DayMovingAverage" with
  | error e => rfl
  | ok price =>
      dsimp only
      rcases h with h | h
      · rw [if_pos h]
        rfl
      · by_cases h2 : (reportsOf income_statement).length < 3
        · rw [if_pos h2]
          rfl
        · rw [if_neg h2, if_pos h]
          rfl

theorem rule6_unusable_false (overview : RawRecord)
    (income_statement balance_sheet : Statement)
    (h3 : ¬ (reportsOf income_statement).length < 3)
    (h3b : ¬ (reportsOf balance_sheet).length < 3)
    (h : (eps3_values income_statement balance_sheet).length < 3) :
    (check_rule_6_pe_ratio overview income_statement balance_sheet).1 = false := by
  unfold check_rule_6_pe_ratio
  cases hgf : get_field overview "50DayMovingAverage" with
  | error e => rfl
  | ok price =>
      dsimp only
      rw [if_neg h3, if_neg h3b]
      rw [if_pos h]
      rfl

theorem rule3_count_error_false (income_statement : Statement) (e : String)
    (h : count_positive_net_income
      ((reportsOf income_statement).take Config.minEarningsYears) = Except.error e) :
    (check_rule_3_earnings_stability income_statement).1 = false := by
  by_cases hlen : (reportsOf income_statement).length < Config.minEarningsYears
  · exact rule3_short_false income_statement hlen
  · rw [rule3_eval income_statement (Nat.le_of_not_lt hlen), h]
    rfl

/-- Claim C2: every rule evaluator is total on all inputs, returns a
    non-empty detail string, and reports a failed outcome whenever the
    required field or series is missing, malformed, or a fetch failed
    (empty datasets standing in for failed fetches). -/
theorem claim_C2 :
    (∀ overview, (check_rule_1_size overview).2 ≠ "") ∧
    (∀ balance_sheet income_statement overview,
      (check_rule_2_financial_condition balance_sheet income_statement overview).2 ≠ "") ∧
    (∀ income_statement, (check_rule_3_earnings_stability income_statement).2 ≠ "") ∧
    (∀ overview dividends, (check_rule_4_dividend_record overview dividends).2 ≠ "") ∧
    (∀ income_statement balance_sheet,
      (check_rule_5_earnings_growth income_statement balance_sheet).2 ≠ "") ∧
    (∀ overview income_statement balance_sheet,
      (check_rule_6_pe_ratio overview income_statement balance_sheet).2 ≠ "") ∧
    (∀ overview, (check_rule_7_price_to_book overview).2 ≠ "") ∧
    (∀ overview e, get_field overview "MarketCapitalization" = Except.error e →
      (check_rule_1_size overview).1 = false) ∧
    (∀ balance_sheet income_statement overview, reportsOf balance_sheet = [] →
      (check_rule_2_financial_condition balance_sheet income_statement overview).1 = false) ∧
    (∀ balance_sheet income_statement overview e,
      rule2_body balance_sheet income_statement overview = Except.error e →
      (check_rule_2_financial_condition balance_sheet income_statement overview).1 = false) ∧
    (∀ income_statement,
      (reportsOf income_statement).length < Config.minEarningsYears →
      (check_rule_3_earnings_stability income_statement).1 = false) ∧
    (∀ income_statement e,
      count_positive_net_income
        ((reportsOf income_statement).take Config.minEarningsYears) = Except.error e →
      (check_rule_3_earnings_stability income_statement).1 = false) ∧
    (∀ overview dividends e, get_field overview "DividendYield" = Except.error e →
      (check_rule_4_dividend_record overview dividends).1 = false) ∧
    (∀ overview dividends, dividends = Option.none ∨ dividends = some [] →
      (check_rule_4_dividend_record overview dividends).1 = false) ∧
    (∀ overview d ds, years_with_dividends (d :: ds) = [] →
      (check_rule_4_dividend_record overview (some (d :: ds))).1 = false) ∧
    (∀ income_statement balance_sheet,
      (reportsOf income_statement).length < 10 ∨ (reportsOf balance_sheet).length < 10 →
      (check_rule_5_earnings_growth income_statement balance_sheet).1 = false) ∧
    (∀ income_statement balance_sheet,
      ((epsList income_statement balance_sheet).filterMap id).length < 10 →
      (check_rule_5_earnings_growth income_statement balance_sheet).1 = false) ∧
    (∀ overview income_statement balance_sheet e,
      get_field overview "50DayMovingAverage" = Except.error e →
      (check_rule_6_pe_ratio overview income_statement balance_sheet).1 = false) ∧
    (∀ overview income_statement balance_sheet,
      (reportsOf income_statement).length < 3 ∨ (reportsOf balance_sheet).length < 3 →
      (check_rule_6_pe_ratio overview income_statement balance_sheet).1 = false) ∧
    (∀ overview income_statement balance_sheet,
      (eps3_values income_statement balance_sheet).length < 3 →
      (check_rule_6_pe_ratio overview income_statement balance_sheet).1 = false) ∧
    (∀ overview e, get_field overview "PriceToBookRatio" = Except.error e →
      (check_rule_7_price_to_book overview).1 = false) := by
  refine ⟨rule1_detail_ne, ?_, rule3_detail_ne, ?_, rule5_detail_ne, ?_,
    rule7_detail_ne, rule1_missing_false, rule2_no_data_false, rule2_error_false,
    rule3_short_false, rule3_count_error_false, rule4_yield_error_false,
    rule4_no_history_false, rule4_no_dates_false, ?_, ?_,
    rule6_price_error_false, rule6_short_false, ?_, rule7_missing_false⟩
  · exact rule2_detail_ne
  · exact rule4_detail_ne
  · exact rule6_detail_ne
  · intro income_statement balance_sheet h
    rcases h with h | h
    · exact rule5_short_income_false income_statement balance_sheet h
    · by_cases h2 : (reportsOf income_statement).length < 10
      · exact rule5_short_income_false income_statement balance_sheet h2
      · exact rule5_short_balance_false income_statement balance_sheet h2 h
  · intro income_statement balance_sheet h
    by_cases h2 : (reportsOf income_statement).length < 10
    · exact rule5_short_income_false income_statement balance_sheet h2
    · by_cases h3 : (reportsOf balance_sheet).length < 10
      · exact rule5_short_balance_false income_statement balance_sheet h2 h3
      · exact rule5_unusable_false income_statement balance_sheet h2 h3 h
  · intro overview income_statement balance_sheet h
    by_cases h2 : (reportsOf income_statement).length < 3
    · exact rule6_short_false overview income_statement balance_sheet (Or.inl h2)
    · by_cases h3 : (reportsOf balance_sheet).length < 3
      · exact rule6_short_false overview income_statement balance_sheet (Or.inr h3)
      · exact rule6_unusable_false overview income_statement balance_sheet h2 h3 h

/-- Witness for claim C2: the conjuncts applied at concrete inputs with the
    hypotheses discharged (an empty overview record and empty datasets). -/
theorem claim_C2_witness :
    (check_rule_1_size []).1 = false ∧ (check_rule_1_size []).2 ≠ "" ∧
    (check_rule_2_financial_condition Option.none Option.none []).1 = false ∧
    (check_rule_5_earnings_growth Option.none Option.none).1 = false := by
  refine ⟨?_, claim_C2.1 [], ?_, ?_⟩
  · exact claim_C2.2.2.2.2.2.2.2.1 [] "MarketCapitalization N/A" (by rfl)
  · exact claim_C2.2.2.2.2.2.2.2.2.1 Option.none Option.none [] (by rfl)
  · exact claim_C2.2.2.2.2.2.2.2.2.2.2.2.2.2.2.2.1 Option.none Option.none (Or.inl (by decide))

theorem collect_passed_length (l : List (String × (Bool × String))) :
    (collect_passed l).length = l.countP (fun x => x.2.1) := by
  induction l with
  | nil => rfl
  | cons a t ih =>
      by_cases h : a.2.1
      · simp [collect_passed, h, List.countP_cons, ih]
      · simp [collect_passed, h, List.countP_cons, ih]

/-- Claim C3: when the overview resolves, evaluation produces a result
    whose total_passed counts exactly the passing outcomes of the seven
    rules, passes_all holds exactly at seven, and the outcome list is the
    seven evaluators in fixed rule order 1 to 7. -/
theorem claim_C3 (ticker : String) (o : RawRecord)
    (income_statement : Option Statement) (balance_sheet : Option Statement)
    (dividends : Option (Option (List DivRecord)))
    (h : overview_resolved (some o) = true) :
    ∃ res, evaluate_stock ticker (some o) income_statement balance_sheet dividends =
        some res ∧
      res.total_passed =
        (rule_list o income_statement.join balance_sheet.join dividends.join).countP
          (fun x => x.2.1) ∧
      (res.passes_all = true ↔ res.total_passed = 7) ∧
      res.rule_details =
        (rule_list o income_statement.join balance_sheet.join dividends.join).map
          (fun x => (x.1, x.2.2)) ∧
      rule_list o income_statement.join balance_sheet.join dividends.join =
        [("Rule 1 (adequate size)", check_rule_1_size o),
         ("Rule 2 (strong financial condition)",
           check_rule_2_financial_condition balance_sheet.join income_statement.join o),
         ("Rule 3 (earnings stability)",
           check_rule_3_earnings_stability income_statement.join),
         ("Rule 4 (dividend record)",
           check_rule_4_dividend_record o dividends.join),
         ("Rule 5 (earnings growth)",
           check_rule_5_earnings_growth income_statement.join balance_sheet.join),
         ("Rule 6 (moderate P/E)",
           check_rule_6_pe_ratio o income_statement.join balance_sheet.join),
         ("Rule 7 (moderate P/B)", check_rule_7_price_to_book o)] := by
  unfold evaluate_stock
  rw [if_pos h]
  refine ⟨_, rfl, ?_, ?_, rfl, rfl⟩
  · exact collect_passed_length _
  · simp

/-- Witness for claim C3: the aggregation property applied at a concrete
    resolvable overview with all other datasets missing. -/
theorem claim_C3_witness :
    ∃ res, evaluate_stock "IBM" (some [("Symbol", PyVal.vStr "IBM")])
        Option.none Option.none Option.none = some res ∧ res.total_passed = 0 := by
  obtain ⟨res, he, hc, -, -, -⟩ :=
    claim_C3 "IBM" [("Symbol", PyVal.vStr "IBM")] Option.none Option.none Option.none
      (by decide)
  refine ⟨res, he, ?_⟩
  rw [hc]
  decide

theorem make_request_at_ceiling (c : Client) (w : World)
    (params : List (String × String)) (outcome : HttpOutcome)
    (h : c.max_daily_calls ≤ c.daily_calls) :
    make_request c w params outcome =
      { response := Option.none, client := c, world := w,
        request_sent := Option.none } := by
  unfold make_request
  rw [if_pos h]

theorem run_calls_daily (calls : List CallSpec) : ∀ (c : Client) (w : World),
    (run_calls c w calls).1.daily_calls =
      c.daily_calls + (run_calls c w calls).2.2.length := by
  induction calls with
  | nil => intro c w; rfl
  | cons call rest ih =>
      intro c w
      unfold run_calls
      by_cases hc : c.max_daily_calls ≤ c.daily_calls
      · simp only [make_request, if_pos hc]
        simp [ih]
      · simp only [make_request, if_neg hc, rate_limit]
        simp [ih]
        omega

theorem run_calls_max_const (calls : List CallSpec) : ∀ (c : Client) (w : World),
    (run_calls c w calls).1.max_daily_calls = c.max_daily_calls := by
  induction calls with
  | nil => intro c w; rfl
  | cons call rest ih =>
      intro c w
      unfold run_calls
      by_cases hc : c.max_daily_calls ≤ c.daily_calls
      · simp only [make_request, if_pos hc]
        simp [ih]
      · simp only [make_request, if_neg hc, rate_limit]
        simp [ih]

theorem run_calls_daily_le (calls : List CallSpec) : ∀ (c : Client) (w : World),
    (run_calls c w calls).1.daily_calls ≤ max c.daily_calls c.max_daily_calls := by
  induction calls with
  | nil => intro c w; exact le_max_left _ _
  | cons call rest ih =>
      intro c w
      unfold run_calls
      by_cases hc : c.max_daily_calls ≤ c.daily_calls
      · simp only [make_request, if_pos hc]
        simpa using ih c _
      · simp only [make_request, if_neg hc, rate_limit]
        have h2 := ih { c with
          last_call_time := (rate_limit c { clock := w.clock + call.idle }).2.clock
          daily_calls := c.daily_calls + 1 } (rate_limit c { clock := w.clock + call.idle }).2
        simp only [rate_limit] at h2
        refine le_trans h2 ?_
        simp only [max_le_iff]
        constructor
        · omega
        · exact le_max_right _ _

theorem rate_limit_spacing (c : Client) (w : World)
    (hlw : c.last_call_time ≤ w.clock) :
    c.last_call_time + c.min_delay ≤ (rate_limit c w).2.clock := by
  simp only [rate_limit]
  split
  · show c.last_call_time + c.min_delay ≤
      w.clock + (c.min_delay - (w.clock - c.last_call_time))
    linarith
  · next h =>
      show c.last_call_time + c.min_delay ≤ w.clock
      linarith [not_lt.mp h]

theorem rate_limit_client (c : Client) (w : World) :
    (rate_limit c w).1 = { c with last_call_time := (rate_limit c w).2.clock
                                  daily_calls := c.daily_calls + 1 } := by
  simp only [rate_limit]

theorem run_calls_spacing (calls : List CallSpec) : ∀ (c : Client) (w : World),
    0 ≤ c.min_delay → (∀ x ∈ calls, 0 ≤ x.idle) → c.last_call_time ≤ w.clock →
    List.Chain' (fun t1 t2 => c.min_delay ≤ t2 - t1)
      (c.last_call_time :: (run_calls c w calls).2.2) := by
  induction calls with
  | nil => intro c w _ _ _; simp [run_calls]
  | cons call rest ih =>
      intro c w hd hidle hlw
      have hidle0 : 0 ≤ call.idle := hidle call (List.mem_cons_self _ _)
      have hidle1 : ∀ x ∈ rest, 0 ≤ x.idle :=
        fun x hx => hidle x (List.mem_cons_of_mem _ hx)
      have hlw0 : c.last_call_time ≤ w.clock + call.idle := by linarith
      unfold run_calls
      by_cases hc : c.max_daily_calls ≤ c.daily_calls
      · simp only [make_request, if_pos hc]
        exact ih c { clock := w.clock + call.idle } hd hidle1 hlw0
      · simp only [make_request, if_neg hc]
        have hsp := rate_limit_spacing c { clock := w.clock + call.idle } hlw0
        have h2 := ih ((rate_limit c { clock := w.clock + call.idle }).1)
          ((rate_limit c { clock := w.clock + call.idle }).2)
          (by rw [rate_limit_client]; exact hd)
          hidle1
          (le_of_eq (by rw [rate_limit_client]))
        rw [rate_limit_client] at h2
        dsimp only at h2 ⊢
        rw [List.singleton_append, List.chain'_cons]
        refine ⟨?_, h2⟩
        rw [rate_limit_client]
        dsimp only
        linarith

/-- Claim C1: at the daily ceiling every fetch returns unavailable at once,
    with no dispatch, no delay, and the quota state untouched; hence over
    any sequence of fetches the number of dispatched requests never
    exceeds the ceiling. -/
theorem claim_C1 :
    (∀ (c : Client) (w : World) (params : List (String × String))
        (outcome : HttpOutcome), c.max_daily_calls ≤ c.daily_calls →
      make_request c w params outcome =
        { response := Option.none, client := c, world := w,
          request_sent := Option.none }) ∧
    (∀ (c : Client) (w : World) (symbol : String) (outcome : HttpOutcome),
        c.max_daily_calls ≤ c.daily_calls →
      get_overview c w symbol outcome =
        { response := Option.none, client := c, world := w,
          request_sent := Option.none } ∧
      get_income_statement c w symbol outcome =
        { response := Option.none, client := c, world := w,
          request_sent := Option.none } ∧
      get_balance_sheet c w symbol outcome =
        { response := Option.none, client := c, world := w,
          request_sent := Option.none } ∧
      get_dividends c w symbol outcome =
        { response := Option.none, client := c, world := w,
          request_sent := Option.none }) ∧
    (∀ (c : Client) (w : World) (calls : List CallSpec), c.daily_calls = 0 →
      (run_calls c w calls).2.2.length ≤ c.max_daily_calls) := by
  refine ⟨?_, ?_, ?_⟩
  · intro c w params outcome h
    exact make_request_at_ceiling c w params outcome h
  · intro c w symbol outcome h
    exact ⟨make_request_at_ceiling c w _ outcome h,
      make_request_at_ceiling c w _ outcome h,
      make_request_at_ceiling c w _ outcome h,
      make_request_at_ceiling c w _ outcome h⟩
  · intro c w calls h0
    have h1 := run_calls_daily calls c w
    have h2 := run_calls_daily_le calls c w
    rw [h0] at h1 h2
    omega

/-- A client whose two-call daily ceiling is already exhausted, matching
    the quota example of the specification. -/
def clientAtCeiling : Client :=
  { api_key := "key", calls_per_minute := 5, min_delay := 12,
    last_call_time := 30, daily_calls := 2, max_daily_calls := 2 }

/-- Witness for claim C1: with ceiling 2 and two dispatched calls, a third
    fetch returns unavailable with nothing changed, and a fresh client
    never records more dispatches than the ceiling on a concrete trace. -/
theorem claim_C1_witness :
    get_overview clientAtCeiling { clock := 100 } "IBM"
        (HttpOutcome.good [("Symbol", PyVal.vStr "IBM")]) =
      { response := Option.none, client := clientAtCeiling, world := { clock := 100 },
        request_sent := Option.none } ∧
    (run_calls (mkClient "key" Option.none) { clock := 0 }
        [{ idle := 0, params := [], outcome := HttpOutcome.good [] },
         { idle := 1, params := [], outcome := HttpOutcome.good [] }]).2.2.length ≤
      (mkClient "key" Option.none).max_daily_calls :=
  ⟨(claim_C1.2.1 clientAtCeiling { clock := 100 } "IBM"
      (HttpOutcome.good [("Symbol", PyVal.vStr "IBM")]) (by decide)).1,
   claim_C1.2.2 (mkClient "key" Option.none) { clock := 0 } _ (by rfl)⟩

/-- Claim C8: consecutively dispatched requests are spaced at least
    60 over callsPerMinute seconds apart on the mock clock; the client
    sleeps away any remainder of that minimum delay before dispatching. -/
theorem claim_C8 (api_key : String) (cpm : ℚ) (w : World) (calls : List CallSpec)
    (hcpm : 0 < cpm)
    (hw : (mkClient api_key (some cpm)).last_call_time ≤ w.clock)
    (hidle : ∀ x ∈ calls, 0 ≤ x.idle) :
    (mkClient api_key (some cpm)).min_delay = 60 / cpm ∧
    List.Chain' (fun t1 t2 => 60 / cpm ≤ t2 - t1)
      (run_calls (mkClient api_key (some cpm)) w calls).2.2 := by
  have hne : cpm ≠ 0 := ne_of_gt hcpm
  have hmd : (mkClient api_key (some cpm)).min_delay = 60 / cpm := by
    simp only [mkClient, if_neg hne]
  refine ⟨hmd, ?_⟩
  have h0 : 0 ≤ (mkClient api_key (some cpm)).min_delay := by
    rw [hmd]
    positivity
  have h := run_calls_spacing calls (mkClient api_key (some cpm)) w h0 hidle hw
  rw [hmd] at h
  exact h.tail

/-- Witness for claim C8: the spacing property applied to a concrete
    two-fetch trace at five calls per minute. -/
theorem claim_C8_witness :
    (mkClient "key" (some 5)).min_delay = 60 / 5 ∧
    List.Chain' (fun t1 t2 => 60 / 5 ≤ t2 - t1)
      (run_calls (mkClient "key" (some 5)) { clock := 0 }
        [{ idle := 0, params := [], outcome := HttpOutcome.good [] },
         { idle := 1, params := [], outcome := HttpOutcome.good [] }]).2.2 :=
  claim_C8 "key" 5 { clock := 0 } _ (by norm_num) (by norm_num [mkClient])
    (by
      intro x hx
      simp only [List.mem_cons, List.not_mem_nil, or_false] at hx
      rcases hx with rfl | rfl
      all_goals norm_num)

theorem filterMap_id_all_some (l : List (Option ℚ)) (h : ∀ x ∈ l, x.isSome) :
    (l.filterMap id).length = l.length := by
  induction l with
  | nil => rfl
  | cons a t ih =>
      cases a with
      | none => exact absurd (h _ (List.mem_cons_self _ _)) (by simp)
      | some q =>
          simp only [List.filterMap_cons, id, List.length_cons]
          rw [ih (fun x hx => h x (List.mem_cons_of_mem _ hx))]

theorem epsList_length (income_statement balance_sheet : Statement)
    (h10i : 10 ≤ (reportsOf income_statement).length)
    (h10b : 10 ≤ (reportsOf balance_sheet).length) :
    (epsList income_statement balance_sheet).length = 10 := by
  unfold epsList
  simp only [List.length_map, List.length_zip, List.length_take]
  omega

/-- Claim C4: with 10 years of both series and all ten EPS values usable,
    rule 5 averages EPS indices 0 to 2 against indices 7 to 9; a
    non-positive beginning average fails the rule, and otherwise it passes
    exactly when relative growth exceeds one third. -/
theorem claim_C4 (income_statement balance_sheet : Statement)
    (h10i : 10 ≤ (reportsOf income_statement).length)
    (h10b : 10 ≤ (reportsOf balance_sheet).length)
    (hall : ∀ x ∈ epsList income_statement balance_sheet, x.isSome) :
    (avg (rule5_beginning_eps income_statement balance_sheet) ≤ 0 →
      (check_rule_5_earnings_growth income_statement balance_sheet).1 = false) ∧
    (0 < avg (rule5_beginning_eps income_statement balance_sheet) →
      ((check_rule_5_earnings_growth income_statement balance_sheet).1 = true ↔
        Config.minEarningsGrowth <
          (avg (rule5_ending_eps income_statement balance_sheet) -
            avg (rule5_beginning_eps income_statement balance_sheet)) /
            |avg (rule5_beginning_eps income_statement balance_sheet)|)) := by
  have hlen := epsList_length income_statement balance_sheet h10i h10b
  have husable : ((epsList income_statement balance_sheet).filterMap id).length = 10 := by
    rw [filterMap_id_all_some _ hall, hlen]
  have hend : (rule5_ending_eps income_statement balance_sheet).length = 3 := by
    unfold rule5_ending_eps
    rw [filterMap_id_all_some _
      (fun x hx => hall x (List.take_subset 3 _ hx))]
    simp only [List.length_take, hlen]
    omega
  have hbeg : (rule5_beginning_eps income_statement balance_sheet).length = 3 := by
    unfold rule5_beginning_eps
    rw [filterMap_id_all_some _
      (fun x hx => hall x (List.drop_subset 7 _ (List.take_subset 3 _ hx)))]
    simp only [List.length_take, List.length_drop, hlen]
    omega
  unfold check_rule_5_earnings_growth
  rw [if_neg (Nat.not_lt.mpr h10i), if_neg (Nat.not_lt.mpr h10b)]
  dsimp only
  rw [if_neg (by rw [husable]; omega)]
  rw [if_neg (by rw [hend, hbeg]; omega)]
  constructor
  · intro hle
    rw [if_pos hle]
    rfl
  · intro hpos
    rw [if_neg (not_le.mpr hpos)]
    by_cases hg : Config.minEarningsGrowth <
        (avg (rule5_ending_eps income_statement balance_sheet) -
          avg (rule5_beginning_eps income_statement balance_sheet)) /
          |avg (rule5_beginning_eps income_statement balance_sheet)|
    · rw [if_pos (decide_eq_true hg)]
      simp only [handle]
      simpa using hg
    · rw [if_neg (by simpa using hg)]
      simp only [handle]
      simpa using hg

/-- A ten-year income series whose three most recent EPS values are 1.40,
    1.30, 1.50 and whose remaining years have EPS 1.00 (one share
    outstanding each year). -/
def c4_income : Statement :=
  some [[("netIncome", PyVal.vNum "1.40" (7/5))],
        [("netIncome", PyVal.vNum "1.30" (13/10))],
        [("netIncome", PyVal.vNum "1.50" (3/2))],
        [("netIncome", PyVal.vNum "1.00" 1)],
        [("netIncome", PyVal.vNum "1.00" 1)],
        [("netIncome", PyVal.vNum "1.00" 1)],
        [("netIncome", PyVal.vNum "1.00" 1)],
        [("netIncome", PyVal.vNum "1.00" 1)],
        [("netIncome", PyVal.vNum "1.00" 1)],
        [("netIncome", PyVal.vNum "1.00" 1)]]

/-- Ten years of one common share outstanding. -/
def c4_balance : Statement :=
  some [[("commonStockSharesOutstanding", PyVal.vNum "1" 1)],
        [("commonStockSharesOutstanding", PyVal.vNum "1" 1)],
        [("commonStockSharesOutstanding", PyVal.vNum "1" 1)],
        [("commonStockSharesOutstanding", PyVal.vNum "1" 1)],
        [("commonStockSharesOutstanding", PyVal.vNum "1" 1)],
        [("commonStockSharesOutstanding", PyVal.vNum "1" 1)],
        [("commonStockSharesOutstanding", PyVal.vNum "1" 1)],
        [("commonStockSharesOutstanding", PyVal.vNum "1" 1)],
        [("commonStockSharesOutstanding", PyVal.vNum "1" 1)],
        [("commonStockSharesOutstanding", PyVal.vNum "1" 1)]]

/-- Witness for claim C4: beginning EPS 1.00 each, ending EPS 1.40, 1.30,
    1.50, growth 0.40, rule 5 passes. -/
theorem claim_C4_witness :
    0 < avg (rule5_beginning_eps c4_income c4_balance) ∧
    (avg (rule5_ending_eps c4_income c4_balance) -
      avg (rule5_beginning_eps c4_income c4_balance)) /
      |avg (rule5_beginning_eps c4_income c4_balance)| = 2/5 ∧
    (check_rule_5_earnings_growth c4_income c4_balance).1 = true := by
  have hb : rule5_beginning_eps c4_income c4_balance = [1/1, 1/1, 1/1] := rfl
  have he : rule5_ending_eps c4_income c4_balance = [7/5/(1:ℚ), 13/10/(1:ℚ), 3/2/(1:ℚ)] := rfl
  have havgb : avg (rule5_beginning_eps c4_income c4_balance) = 1 := by
    rw [hb]
    norm_num [avg]
  have havge : avg (rule5_ending_eps c4_income c4_balance) = 7/5 := by
    rw [he]
    norm_num [avg]
  refine ⟨by rw [havgb]; norm_num, by rw [havgb, havge]; norm_num, ?_⟩
  refine ((claim_C4 c4_income c4_balance (by decide) (by decide) (by decide)).2
    ?_).mpr ?_
  · rw [havgb]
    norm_num
  · rw [havgb, havge]
    norm_num [Config.minEarningsGrowth]

/-- Claim C5: with a usable latest balance-sheet year and a resolvable
    sector string, rule 2 in the utilities branch passes exactly when
    equity is positive and total debt over equity is below 2 (failing with
    the ratio-not-computable detail at non-positive equity), and otherwise
    passes exactly when the current ratio exceeds 2 and long-term debt is
    below working capital, reporting both sub-conditions in the detail. -/
theorem claim_C5 (balance_sheet income_statement : Statement) (overview : RawRecord)
    (latest : RawRecord) (rest : List RawRecord) (ltd std te : ℚ) (sector : String)
    (hbs : reportsOf balance_sheet = latest :: rest)
    (h1 : get_field latest "longTermDebt" = Except.ok ltd)
    (h2 : get_field latest "shortTermDebt" = Except.ok std)
    (h3 : get_field latest "totalShareholderEquity" = Except.ok te)
    (hs : lower_sector overview = Except.ok sector) :
    (sector = "utilities" →
      (te ≤ 0 →
        check_rule_2_financial_condition balance_sheet income_statement overview =
          (false, "debt/equity N/A (negative equity), " ++
            coverage_str income_statement)) ∧
      (0 < te →
        ((check_rule_2_financial_condition balance_sheet income_statement
            overview).1 = true ↔ (ltd + std) / te < 2))) ∧
    (sector ≠ "utilities" → ∀ ca cl : ℚ,
      get_field latest "totalCurrentAssets" = Except.ok ca →
      get_field latest "totalCurrentLiabilities" = Except.ok cl → cl ≠ 0 →
      (((check_rule_2_financial_condition balance_sheet income_statement
          overview).1 = true ↔ (2 < ca / cl ∧ ltd < ca - cl)) ∧
       (check_rule_2_financial_condition balance_sheet income_statement overview).2 =
         current_ratio_part (ca / cl) ++ ", " ++ debt_part ltd (ca - cl) ++ ", " ++
           coverage_str income_statement)) := by
  unfold check_rule_2_financial_condition rule2_body
  rw [hbs]
  dsimp only
  rw [h1, h2, h3, hs]
  dsimp only
  constructor
  · intro hsec
    rw [if_pos hsec]
    constructor
    · intro hte
      rw [if_neg (not_lt.mpr hte)]
      rfl
    · intro hte
      rw [if_pos hte]
      dsimp only
      by_cases hr : (ltd + std) / te < 2
      · rw [if_pos hr]
        simp [handle, hr]
      · rw [if_neg hr]
        simp [handle, hr]
  · intro hsec ca cl hca hcl hne
    rw [if_neg hsec, hca]
    dsimp only
    rw [hcl]
    dsimp only
    unfold pyDiv
    rw [if_neg hne]
    dsimp only
    constructor
    · simp [handle, Config.minCurrentRatio]
    · rfl

/-- The latest balance-sheet year of the claim C5 witness. -/
def c5_latest : RawRecord :=
  [("longTermDebt", PyVal.vNum "100" 100),
   ("shortTermDebt", PyVal.vNum "50" 50),
   ("totalShareholderEquity", PyVal.vNum "100" 100),
   ("totalCurrentAssets", PyVal.vNum "500" 500),
   ("totalCurrentLiabilities", PyVal.vNum "200" 200)]

/-- Witness for claim C5: a non-utility (no sector classification, so the
    lowered sector is the empty string) with current ratio 2.5 and
    long-term debt 100 below working capital 300 passes rule 2. -/
theorem claim_C5_witness :
    (check_rule_2_financial_condition (some [c5_latest]) Option.none []).1 = true := by
  have h := (claim_C5 (some [c5_latest]) Option.none [] c5_latest [] 100 50 100 ""
    rfl rfl rfl rfl rfl).2 (by decide) 500 200 rfl rfl (by norm_num)
  exact h.1.mpr (by norm_num)

/-- Claim C6: with a usable dividend yield and at least one valid
    ex-dividend date, rule 4 passes exactly when the longest
    decreasing-by-one run at the front of the descending-sorted distinct
    ex-dividend years reaches the 20-year threshold. -/
theorem claim_C6 (overview : RawRecord) (l : List DivRecord) (dy : ℚ)
    (hdy : get_field overview "DividendYield" = Except.ok dy)
    (hne : years_with_dividends l ≠ []) :
    (check_rule_4_dividend_record overview (some l)).1 = true ↔
      Config.minDividendYears ≤ countRun (sortDesc (years_with_dividends l)) := by
  cases l with
  | nil => exact absurd (by simp [years_with_dividends]) hne
  | cons d ds =>
      unfold check_rule_4_dividend_record
      rw [hdy]
      dsimp only
      cases hy : years_with_dividends (d :: ds) with
      | nil => exact absurd hy hne
      | cons y ys =>
          dsimp only
          by_cases hc : Config.minDividendYears ≤ countRun (sortDesc (y :: ys))
          · rw [if_pos hc]
            simp [handle, hc]
          · rw [if_neg hc]
            simp [handle, hc]

/-- Dividend history with ex-dividend years 2023, 2022, 2021, 2019. -/
def c6_div_a : List DivRecord :=
  [{ ex_dividend_date := some (ExDate.valid 2023) },
   { ex_dividend_date := some (ExDate.valid 2022) },
   { ex_dividend_date := some (ExDate.valid 2021) },
   { ex_dividend_date := some (ExDate.valid 2019) }]

/-- Dividend history with ex-dividend years 2023 down to 2004, no gaps. -/
def c6_div_b : List DivRecord :=
  [{ ex_dividend_date := some (ExDate.valid 2023) },
   { ex_dividend_date := some (ExDate.valid 2022) },
   { ex_dividend_date := some (ExDate.valid 2021) },
   { ex_dividend_date := some (ExDate.valid 2020) },
   { ex_dividend_date := some (ExDate.valid 2019) },
   { ex_dividend_date := some (ExDate.valid 2018) },
   { ex_dividend_date := some (ExDate.valid 2017) },
   { ex_dividend_date := some (ExDate.valid 2016) },
   { ex_dividend_date := some (ExDate.valid 2015) },
   { ex_dividend_date := some (ExDate.valid 2014) },
   { ex_dividend_date := some (ExDate.valid 2013) },
   { ex_dividend_date := some (ExDate.valid 2012) },
   { ex_dividend_date := some (ExDate.valid 2011) },
   { ex_dividend_date := some (ExDate.valid 2010) },
   { ex_dividend_date := some (ExDate.valid 2009) },
   { ex_dividend_date := some (ExDate.valid 2008) },
   { ex_dividend_date := some (ExDate.valid 2007) },
   { ex_dividend_date := some (ExDate.valid 2006) },
   { ex_dividend_date := some (ExDate.valid 2005) },
   { ex_dividend_date := some (ExDate.valid 2004) }]

/-- An overview with a usable dividend yield. -/
def c6_overview : RawRecord := [("DividendYield", PyVal.vNum "0.0235" (47/2000))]

/-- Witness for claim C6: years 2023, 2022, 2021, 2019 give a run of 3 and
    the rule fails; years 2023 down to 2004 give a run of 20 and it
    passes. -/
theorem claim_C6_witness :
    countRun (sortDesc (years_with_dividends c6_div_a)) = 3 ∧
    (check_rule_4_dividend_record c6_overview (some c6_div_a)).1 = false ∧
    countRun (sortDesc (years_with_dividends c6_div_b)) = 20 ∧
    (check_rule_4_dividend_record c6_overview (some c6_div_b)).1 = true := by
  refine ⟨by decide, ?_, by decide, ?_⟩
  · exact Bool.eq_false_iff.mpr (fun h =>
      absurd ((claim_C6 c6_overview c6_div_a (47/2000) rfl (by decide)).mp h)
        (by decide))
  · exact (claim_C6 c6_overview c6_div_b (47/2000) rfl (by decide)).mpr (by decide)

theorem count_positive_spec (l : List RawRecord) :
    ∀ k, count_positive_net_income l = Except.ok k →
      k = l.countP (fun r => match get_field r "netIncome" with
        | Except.ok ni => decide (0 < ni)
        | Except.error _ => false) := by
  induction l with
  | nil =>
      intro k h
      simp only [count_positive_net_income, Except.ok.injEq] at h
      simp [← h]
  | cons r rs ih =>
      intro k h
      unfold count_positive_net_income at h
      cases hgf : get_field r "netIncome" with
      | error e => rw [hgf] at h; exact Except.noConfusion h
      | ok ni =>
          rw [hgf] at h
          cases hc : count_positive_net_income rs with
          | error e => rw [hc] at h; exact Except.noConfusion h
          | ok k2 =>
              rw [hc] at h
              simp only [Except.ok.injEq] at h
              rw [List.countP_cons, ← ih k2 hc, hgf, ← h]
              by_cases hni : 0 < ni
              · simp [hni, Nat.add_comm]
              · simp [hni]

/-- A ten-year income series whose most recent year is missing its
    netIncome field while the other nine years are positive. -/
def c7_bad_income : Statement :=
  some (([] : RawRecord) ::
    [[("netIncome", PyVal.vNum "5" 5)], [("netIncome", PyVal.vNum "5" 5)],
     [("netIncome", PyVal.vNum "5" 5)], [("netIncome", PyVal.vNum "5" 5)],
     [("netIncome", PyVal.vNum "5" 5)], [("netIncome", PyVal.vNum "5" 5)],
     [("netIncome", PyVal.vNum "5" 5)], [("netIncome", PyVal.vNum "5" 5)],
     [("netIncome", PyVal.vNum "5" 5)]])

/-- Counterexample for claim C7: on a ten-year series with one unusable
    year, rule 3 does report passed false, but its detail is the error
    string, not a count of positive years out of ten. -/
theorem claim_C7_counterexample :
    check_rule_3_earnings_stability c7_bad_income = (false, "error (netIncome N/A)") ∧
    "error (netIncome N/A)" ≠ "positive earnings 9/10 years" := by
  constructor
  · rfl
  · decide

/-- Claim C7 (amended): rule 3 fails with a count detail below ten years
    of history; with ten years whose netIncome values are all usable it
    passes exactly when all ten are strictly positive, with the detail
    stating the count of positive years out of ten; a year with an
    unusable netIncome makes the rule fail with an error detail instead of
    a count. -/
theorem claim_C7 :
    (∀ income_statement,
      (reportsOf income_statement).length < Config.minEarningsYears →
      (check_rule_3_earnings_stability income_statement).1 = false) ∧
    (∀ income_statement k,
      Config.minEarningsYears ≤ (reportsOf income_statement).length →
      count_positive_net_income
        ((reportsOf income_statement).take Config.minEarningsYears) = Except.ok k →
      (((check_rule_3_earnings_stability income_statement).1 = true ↔
          k = Config.minEarningsYears) ∧
       (check_rule_3_earnings_stability income_statement).2 =
         "positive earnings " ++ toString k ++ "/10 years" ∧
       k = ((reportsOf income_statement).take Config.minEarningsYears).countP
         (fun r => match get_field r "netIncome" with
           | Except.ok ni => decide (0 < ni)
           | Except.error _ => false))) ∧
    (∀ income_statement e,
      Config.minEarningsYears ≤ (reportsOf income_statement).length →
      count_positive_net_income
        ((reportsOf income_statement).take Config.minEarningsYears) = Except.error e →
      (check_rule_3_earnings_stability income_statement).1 = false ∧
      (check_rule_3_earnings_stability income_statement).2 = "error (" ++ e ++ ")") := by
  refine ⟨rule3_short_false, ?_, ?_⟩
  · intro income_statement k h10 hcount
    rw [rule3_eval income_statement h10, hcount]
    refine ⟨?_, rfl, count_positive_spec _ k hcount⟩
    simp [handle, Except.map]
  · intro income_statement e h10 hcount
    rw [rule3_eval income_statement h10, hcount]
    exact ⟨rfl, rfl⟩

/-- A ten-year income series with strictly positive net income each year. -/
def c7_good_income : Statement :=
  some [[("netIncome", PyVal.vNum "5" 5)], [("netIncome", PyVal.vNum "5" 5)],
        [("netIncome", PyVal.vNum "5" 5)], [("netIncome", PyVal.vNum "5" 5)],
        [("netIncome", PyVal.vNum "5" 5)], [("netIncome", PyVal.vNum "5" 5)],
        [("netIncome", PyVal.vNum "5" 5)], [("netIncome", PyVal.vNum "5" 5)],
        [("netIncome", PyVal.vNum "5" 5)], [("netIncome", PyVal.vNum "5" 5)]]

/-- Witness for claim C7: ten usable positive years pass rule 3 with the
    ten-of-ten count detail. -/
theorem claim_C7_witness :
    (check_rule_3_earnings_stability c7_good_income).1 = true ∧
    (check_rule_3_earnings_stability c7_good_income).2 =
      "positive earnings 10/10 years" := by
  have h := claim_C7.2.1 c7_good_income 10 (by decide) rfl
  exact ⟨h.1.mpr rfl, h.2.1⟩

theorem rule2_fst_coverage_free (balance_sheet : Statement) (overview : RawRecord)
    (is1 is2 : Statement) :
    (check_rule_2_financial_condition balance_sheet is1 overview).1 =
      (check_rule_2_financial_condition balance_sheet is2 overview).1 := by
  unfold check_rule_2_financial_condition rule2_body
  cases hbs : reportsOf balance_sheet with
  | nil => rfl
  | cons latest rest =>
      dsimp only
      cases h1 : get_field latest "longTermDebt" with
      | error e => rfl
      | ok ltd =>
          dsimp only
          cases h2 : get_field latest "shortTermDebt" with
          | error e => rfl
          | ok std =>
              dsimp only
              cases h3 : get_field latest "totalShareholderEquity" with
              | error e => rfl
              | ok te =>
                  dsimp only
                  cases hs : lower_sector overview with
                  | error e => rfl
                  | ok sector =>
                      dsimp only
                      by_cases hu : sector = "utilities"
                      · rw [if_pos hu, if_pos hu]
                        split
                        · rfl
                        · split
                          · rfl
                          · rfl
                      · rw [if_neg hu, if_neg hu]
                        cases h4 : get_field latest "totalCurrentAssets" with
                        | error e => rfl
                        | ok ca =>
                            dsimp only
                            cases h5 : get_field latest "totalCurrentLiabilities" with
                            | error e => rfl
                            | ok cl =>
                                dsimp only
                                unfold pyDiv
                                split
                                · rfl
                                · rfl

/-- Claim C9: the interest-coverage computation of rule 2 never influences
    the pass/fail verdict — for a fixed balance sheet and overview any two
    income statements produce the same passed value — while the coverage
    fragment of the detail covers the 7 most recent years positionally,
    each year rendered as its EBIT over interest figure or annotated N/A
    when unusable. -/
theorem claim_C9 :
    (∀ balance_sheet overview is1 is2,
      (check_rule_2_financial_condition balance_sheet is1 overview).1 =
        (check_rule_2_financial_condition balance_sheet is2 overview).1) ∧
    (∀ income_statement, coverage_list income_statement =
      ((reportsOf income_statement).take 7).map coverage_entry) ∧
    (∀ income_statement, (coverage_list income_statement).length =
      min 7 (reportsOf income_statement).length) ∧
    (∀ report ebit interest, get_field report "ebit" = Except.ok ebit →
      get_field report "interestExpense" = Except.ok interest → 0 < interest →
      coverage_entry report = fmt2 (ebit / interest)) ∧
    (∀ report, (¬ ∃ ebit interest, get_field report "ebit" = Except.ok ebit ∧
        get_field report "interestExpense" = Except.ok interest ∧ 0 < interest) →
      coverage_entry report = "N/A") := by
  have hmap : ∀ income_statement : Statement, coverage_list income_statement =
      ((reportsOf income_statement).take 7).map coverage_entry := by
    intro income_statement
    unfold coverage_list
    cases reportsOf income_statement with
    | nil => rfl
    | cons r rs => rfl
  refine ⟨rule2_fst_coverage_free, hmap, ?_, ?_, ?_⟩
  · intro income_statement
    rw [hmap]
    simp [List.length_take]
  · intro report ebit interest he hi hpos
    unfold coverage_entry
    rw [he, hi]
    dsimp only
    rw [if_pos hpos]
  · intro report hno
    unfold coverage_entry
    cases he : get_field report "ebit" with
    | error e => rfl
    | ok ebit =>
        cases hi : get_field report "interestExpense" with
        | error e => rfl
        | ok interest =>
            dsimp only
            rw [if_neg (fun hpos => hno ⟨ebit, interest, he, hi, hpos⟩)]

/-- Witness for claim C9: the noninterference and coverage-entry facts
    applied at concrete inputs. -/
theorem claim_C9_witness :
    (check_rule_2_financial_condition (some [c5_latest]) Option.none []).1 =
      (check_rule_2_financial_condition (some [c5_latest])
        (some [[("ebit", PyVal.vNum "10" 10),
                ("interestExpense", PyVal.vNum "4" 4)]]) []).1 ∧
    coverage_entry [("ebit", PyVal.vNum "10" 10),
      ("interestExpense", PyVal.vNum "4" 4)] = fmt2 (10 / 4) ∧
    coverage_entry [] = "N/A" := by
  refine ⟨claim_C9.1 (some [c5_latest]) [] Option.none _, ?_, ?_⟩
  · exact claim_C9.2.2.2.1 _ 10 4 rfl rfl (by norm_num)
  · refine claim_C9.2.2.2.2 [] ?_
    rintro ⟨ebit, interest, he, -, -⟩
    exact Except.noConfusion he

/-- Agreement of two income reports on the only field rule 5 and rule 6
    read from them. -/
def agreeNI (r r2 : RawRecord) : Prop :=
  pyGet r "netIncome" = pyGet r2 "netIncome"

/-- Agreement of two balance reports on the only field rule 5 and rule 6
    read from them. -/
def agreeSH (r r2 : RawRecord) : Prop :=
  pyGet r "commonStockSharesOutstanding" = pyGet r2 "commonStockSharesOutstanding"

theorem get_field_congr (r r2 : RawRecord) (f : String) (h : pyGet r f = pyGet r2 f) :
    get_field r f = get_field r2 f := by
  unfold get_field
  rw [h]

theorem eps_pair_congr (r r2 b b2 : RawRecord) (hni : agreeNI r r2)
    (hsh : agreeSH b b2) : eps_pair r b = eps_pair r2 b2 := by
  unfold eps_pair
  rw [get_field_congr r r2 _ hni, get_field_congr b b2 _ hsh]

theorem zip_map_eps_congr {la la2 : List RawRecord}
    (h1 : List.Forall₂ agreeNI la la2) : ∀ {lb lb2 : List RawRecord},
    List.Forall₂ agreeSH lb lb2 →
    (la.zip lb).map (fun p => eps_pair p.1 p.2) =
      (la2.zip lb2).map (fun p => eps_pair p.1 p.2) := by
  induction h1 with
  | nil => intro lb lb2 h2; rfl
  | cons hr htail ih =>
      intro lb lb2 h2
      cases h2 with
      | nil => rfl
      | cons hb htail2 =>
          simp only [List.zip_cons_cons, List.map_cons]
          rw [eps_pair_congr _ _ _ _ hr hb, ih htail2]

theorem zip_filterMap_eps_congr {la la2 : List RawRecord}
    (h1 : List.Forall₂ agreeNI la la2) : ∀ {lb lb2 : List RawRecord},
    List.Forall₂ agreeSH lb lb2 →
    (la.zip lb).filterMap (fun p => eps_pair p.1 p.2) =
      (la2.zip lb2).filterMap (fun p => eps_pair p.1 p.2) := by
  induction h1 with
  | nil => intro lb lb2 h2; rfl
  | cons hr htail ih =>
      intro lb lb2 h2
      cases h2 with
      | nil => rfl
      | cons hb htail2 =>
          simp only [List.zip_cons_cons, List.filterMap_cons]
          rw [eps_pair_congr _ _ _ _ hr hb, ih htail2]

theorem epsList_congr (i1 i2 b1 b2 : Statement)
    (hni : List.Forall₂ agreeNI (reportsOf i1) (reportsOf i2))
    (hsh : List.Forall₂ agreeSH (reportsOf b1) (reportsOf b2)) :
    epsList i1 b1 = epsList i2 b2 := by
  unfold epsList
  exact zip_map_eps_congr (List.forall₂_take 10 hni) (List.forall₂_take 10 hsh)

theorem rule5_congr (i1 i2 b1 b2 : Statement)
    (hni : List.Forall₂ agreeNI (reportsOf i1) (reportsOf i2))
    (hsh : List.Forall₂ agreeSH (reportsOf b1) (reportsOf b2)) :
    check_rule_5_earnings_growth i1 b1 = check_rule_5_earnings_growth i2 b2 := by
  have he := epsList_congr i1 i2 b1 b2 hni hsh
  unfold check_rule_5_earnings_growth rule5_ending_eps rule5_beginning_eps
  rw [hni.length_eq, hsh.length_eq, he]

theorem rule6_congr (overview : RawRecord) (i1 i2 b1 b2 : Statement)
    (hni : List.Forall₂ agreeNI (reportsOf i1) (reportsOf i2))
    (hsh : List.Forall₂ agreeSH (reportsOf b1) (reportsOf b2)) :
    check_rule_6_pe_ratio overview i1 b1 = check_rule_6_pe_ratio overview i2 b2 := by
  have he : eps3_values i1 b1 = eps3_values i2 b2 := by
    unfold eps3_values
    exact zip_filterMap_eps_congr (List.forall₂_take 3 hni) (List.forall₂_take 3 hsh)
  unfold check_rule_6_pe_ratio eps3_values
  rw [hni.length_eq, hsh.length_eq]
  unfold eps3_values at he
  rw [he]

/-- Claim C10: rules 5 and 6 pair income and balance reports purely by
    list position — the EPS series is the positional zip of the two
    series, each entry netIncome over shares outstanding — and consult no
    fiscal-date field: any two input pairs agreeing pointwise on exactly
    those two fields produce identical outcomes. -/
theorem claim_C10 :
    (∀ income_statement balance_sheet,
      epsList income_statement balance_sheet =
        (((reportsOf income_statement).take 10).zip
          ((reportsOf balance_sheet).take 10)).map (fun p => eps_pair p.1 p.2)) ∧
    (∀ income_report balance_report net_income shares,
      get_field income_report "netIncome" = Except.ok net_income →
      get_field balance_report "commonStockSharesOutstanding" = Except.ok shares →
      shares ≠ 0 →
      eps_pair income_report balance_report = some (net_income / shares)) ∧
    (∀ i1 i2 b1 b2, List.Forall₂ agreeNI (reportsOf i1) (reportsOf i2) →
      List.Forall₂ agreeSH (reportsOf b1) (reportsOf b2) →
      check_rule_5_earnings_growth i1 b1 = check_rule_5_earnings_growth i2 b2) ∧
    (∀ overview i1 i2 b1 b2, List.Forall₂ agreeNI (reportsOf i1) (reportsOf i2) →
      List.Forall₂ agreeSH (reportsOf b1) (reportsOf b2) →
      check_rule_6_pe_ratio overview i1 b1 = check_rule_6_pe_ratio overview i2 b2) := by
  refine ⟨fun _ _ => rfl, ?_, rule5_congr, rule6_congr⟩
  intro income_report balance_report net_income shares hni hsh hne
  unfold eps_pair
  rw [hni, hsh]
  dsimp only
  rw [if_neg hne]

/-- An income report carrying a fiscal date and a positive net income. -/
def c10_income_a : RawRecord :=
  [("fiscalDateEnding", PyVal.vStr "2023-12-31"), ("netIncome", PyVal.vNum "5" 5)]

/-- The same income figures under a different (misaligned) fiscal date. -/
def c10_income_b : RawRecord :=
  [("fiscalDateEnding", PyVal.vStr "2019-06-30"), ("netIncome", PyVal.vNum "5" 5)]

/-- A balance report with one share outstanding. -/
def c10_balance : RawRecord :=
  [("commonStockSharesOutstanding", PyVal.vNum "1" 1)]

/-- Witness for claim C10: changing only the fiscal dates of the income
    series leaves rules 5 and 6 unchanged, and a concrete EPS entry is net
    income over shares. -/
theorem claim_C10_witness :
    check_rule_5_earnings_growth (some [c10_income_a]) (some [c10_balance]) =
      check_rule_5_earnings_growth (some [c10_income_b]) (some [c10_balance]) ∧
    check_rule_6_pe_ratio [] (some [c10_income_a]) (some [c10_balance]) =
      check_rule_6_pe_ratio [] (some [c10_income_b]) (some [c10_balance]) ∧
    eps_pair c10_income_a c10_balance = some (5 / 1) := by
  refine ⟨?_, ?_, ?_⟩
  · exact claim_C10.2.2.1 (some [c10_income_a]) (some [c10_income_b])
      (some [c10_balance]) (some [c10_balance])
      (List.Forall₂.cons rfl List.Forall₂.nil)
      (List.Forall₂.cons rfl List.Forall₂.nil)
  · exact claim_C10.2.2.2 [] (some [c10_income_a]) (some [c10_income_b])
      (some [c10_balance]) (some [c10_balance])
      (List.Forall₂.cons rfl List.Forall₂.nil)
      (List.Forall₂.cons rfl List.Forall₂.nil)
  · exact claim_C10.2.1 c10_income_a c10_balance 5 1 rfl rfl (by norm_num)
